import Mathlib

/-
  Verification development for the FightPass backend purchase-and-receipt
  subsystem (src/server.js).

  The embedding is executable and concrete:
  * SHA-256 and HMAC-SHA256 are implemented over `Nat` bytes (validated
    against the FIPS / RFC 4231 test vectors during development), modelling
    node's crypto.createHmac('sha256', secret).update(s).digest('hex').
  * JSON.stringify over the two canonical fact shapes is implemented with
    the field order used by server.js.
  * Date.now()/new Date().toISOString() and SQLite's CURRENT_TIMESTAMP are
    modelled from a millisecond clock using the Gregorian civil-from-days
    conversion, in their respective textual formats.
  * The SQLite store is a record of row lists; each route handler is a
    function from (principal, environment, request, store) to
    (response, store).  Environment records carry the values produced by
    external collaborators (clock, random id generation, the Square charge
    outcome, the Resend email outcome).
-/

/- ===================== bytes, hex, SHA-256, HMAC ===================== -/

/-- 2^32, the modulus for SHA-256 word arithmetic. -/
def W32 : Nat := 4294967296

def add32 (a b : Nat) : Nat := (a + b) % W32

/-- Rotate a 32-bit word right by `n` (for `x < 2^32`). -/
def rotr32 (n x : Nat) : Nat := (x / 2 ^ n) + (x % 2 ^ n) * 2 ^ (32 - n)

def shr32 (n x : Nat) : Nat := x / 2 ^ n

def not32 (x : Nat) : Nat := Nat.xor x 4294967295

def shaCh (x y z : Nat) : Nat := Nat.xor (Nat.land x y) (Nat.land (not32 x) z)

def shaMaj (x y z : Nat) : Nat :=
  Nat.xor (Nat.xor (Nat.land x y) (Nat.land x z)) (Nat.land y z)

def bigSigma0 (x : Nat) : Nat := Nat.xor (Nat.xor (rotr32 2 x) (rotr32 13 x)) (rotr32 22 x)

def bigSigma1 (x : Nat) : Nat := Nat.xor (Nat.xor (rotr32 6 x) (rotr32 11 x)) (rotr32 25 x)

def smallSigma0 (x : Nat) : Nat := Nat.xor (Nat.xor (rotr32 7 x) (rotr32 18 x)) (shr32 3 x)

def smallSigma1 (x : Nat) : Nat := Nat.xor (Nat.xor (rotr32 17 x) (rotr32 19 x)) (shr32 10 x)

/-- The 64 SHA-256 round constants. -/
def shaK : List Nat :=
  [1116352408, 1899447441, 3049323471, 3921009573, 961987163, 1508970993,
   2453635748, 2870763221, 3624381080, 310598401, 607225278, 1426881987,
   1925078388, 2162078206, 2614888103, 3248222580, 3835390401, 4022224774,
   264347078, 604807628, 770255983, 1249150122, 1555081692, 1996064986,
   2554220882, 2821834349, 2952996808, 3210313671, 3336571891, 3584528711,
   113926993, 338241895, 666307205, 773529912, 1294757372, 1396182291,
   1695183700, 1986661051, 2177026350, 2456956037, 2730485921, 2820302411,
   3259730800, 3345764771, 3516065817, 3600352804, 4094571909, 275423344,
   430227734, 506948616, 659060556, 883997877, 958139571, 1322822218,
   1537002063, 1747873779, 1955562222, 2024104815, 2227730452, 2361852424,
   2428436474, 2756734187, 3204031479, 3329325298]

/-- The eight 32-bit working variables of SHA-256. -/
structure Hash8 where
  a : Nat
  b : Nat
  c : Nat
  d : Nat
  e : Nat
  f : Nat
  g : Nat
  hv : Nat
deriving Repr, DecidableEq

def shaH0 : Hash8 :=
  ⟨1779033703, 3144134277, 1013904242, 2773480762, 1359893119, 2600822924, 528734635, 1541459225⟩

/-- Extend the 16 words of a block to the 64-word message schedule. -/
def shaSchedule (block : List Nat) : List Nat :=
  (List.range 48).foldl
    (fun ws _ =>
      let n := ws.length
      let w := add32 (add32 (smallSigma1 (ws.getD (n - 2) 0)) (ws.getD (n - 7) 0))
                     (add32 (smallSigma0 (ws.getD (n - 15) 0)) (ws.getD (n - 16) 0))
      ws ++ [w])
    block

def compressRound (st : Hash8) (kw : Nat × Nat) : Hash8 :=
  let t1 := add32 (add32 (add32 st.hv (bigSigma1 st.e)) (add32 (shaCh st.e st.f st.g) kw.1)) kw.2
  let t2 := add32 (bigSigma0 st.a) (shaMaj st.a st.b st.c)
  ⟨add32 t1 t2, st.a, st.b, st.c, add32 st.d t1, st.e, st.f, st.g⟩

def compressBlock (st : Hash8) (block : List Nat) : Hash8 :=
  let ws := shaSchedule block
  let r := (shaK.zip ws).foldl compressRound st
  ⟨add32 st.a r.a, add32 st.b r.b, add32 st.c r.c, add32 st.d r.d,
   add32 st.e r.e, add32 st.f r.f, add32 st.g r.g, add32 st.hv r.hv⟩

/-- Group bytes four at a time into big-endian 32-bit words. -/
def bytesToWords : List Nat → List Nat
  | b0 :: b1 :: b2 :: b3 :: rest => (b0 * 16777216 + b1 * 65536 + b2 * 256 + b3) :: bytesToWords rest
  | _ => []

/-- Split a byte list into 64-byte blocks (fuelled structural recursion). -/
def chunk64Fuel : Nat → List Nat → List (List Nat)
  | 0, _ => []
  | _, [] => []
  | fuel + 1, bs => bs.take 64 :: chunk64Fuel fuel (bs.drop 64)

/-- SHA-256 padding: 0x80, zeros, then the 64-bit big-endian bit length. -/
def padMessage (msg : List Nat) : List Nat :=
  let len := msg.length
  let zeros := (120 - (len + 1) % 64) % 64
  let bitLen := 8 * len
  msg ++ [128] ++ List.replicate zeros 0 ++
    [bitLen / 2 ^ 56 % 256, bitLen / 2 ^ 48 % 256, bitLen / 2 ^ 40 % 256, bitLen / 2 ^ 32 % 256,
     bitLen / 2 ^ 24 % 256, bitLen / 2 ^ 16 % 256, bitLen / 2 ^ 8 % 256, bitLen % 256]

/-- Big-endian bytes of a 32-bit word. -/
def wordBytes (w : Nat) : List Nat :=
  [w / 16777216 % 256, w / 65536 % 256, w / 256 % 256, w % 256]

/-- SHA-256 of a byte list; returns the 32 digest bytes. -/
def sha256 (msg : List Nat) : List Nat :=
  let padded := padMessage msg
  let blocks := (chunk64Fuel (padded.length + 1) padded).map bytesToWords
  let fin := blocks.foldl compressBlock shaH0
  wordBytes fin.a ++ wordBytes fin.b ++ wordBytes fin.c ++ wordBytes fin.d ++
    wordBytes fin.e ++ wordBytes fin.f ++ wordBytes fin.g ++ wordBytes fin.hv

/-- Lowercase hex digit for `n < 16`. -/
def hexChar (n : Nat) : Char := Char.ofNat (if n < 10 then 48 + n else 87 + n)

def hexEncodeBytes (bs : List Nat) : List Char :=
  bs.flatMap (fun b => [hexChar (b / 16 % 16), hexChar (b % 16)])

/-- UTF-8 encoding of one character. -/
def utf8Bytes (c : Char) : List Nat :=
  let n := c.toNat
  if n < 128 then [n]
  else if n < 2048 then [192 + n / 64, 128 + n % 64]
  else if n < 65536 then [224 + n / 4096, 128 + n / 64 % 64, 128 + n % 64]
  else [240 + n / 262144, 128 + n / 4096 % 64, 128 + n / 64 % 64, 128 + n % 64]

/-- UTF-8 bytes of a string (node hashes and compares strings as UTF-8). -/
def strBytes (s : String) : List Nat := s.data.flatMap utf8Bytes

/-- HMAC-SHA256 (RFC 2104) over byte lists. -/
def hmacSha256 (key msg : List Nat) : List Nat :=
  let key' := if key.length > 64 then sha256 key else key
  let padded := key' ++ List.replicate (64 - key'.length) 0
  let ipad := padded.map (fun b => Nat.xor b 54)
  let opad := padded.map (fun b => Nat.xor b 92)
  sha256 (opad ++ sha256 (ipad ++ msg))

/-- Value of a hex digit character; node's Buffer accepts both cases. -/
def hexDigitVal (c : Char) : Option Nat :=
  let n := c.toNat
  if 48 ≤ n ∧ n ≤ 57 then some (n - 48)
  else if 97 ≤ n ∧ n ≤ 102 then some (n - 87)
  else if 65 ≤ n ∧ n ≤ 70 then some (n - 55)
  else none

/-- Node `Buffer.from(s, 'hex')`: decodes hex pairs, truncating at the first
invalid character or incomplete trailing pair. -/
def hexDecodeAux : List Char → List Nat
  | c1 :: c2 :: rest =>
    match hexDigitVal c1, hexDigitVal c2 with
    | some a, some b => (16 * a + b) :: hexDecodeAux rest
    | _, _ => []
  | _ => []

def hexDecode (s : String) : List Nat := hexDecodeAux s.data

/- ===================== JSON serialization of the fact tuples ===================== -/

/-- JSON.stringify escaping of one character inside a string literal. -/
def jsonEscapeChar (c : Char) : List Char :=
  if c = '"' then ['\\', '"']
  else if c = '\\' then ['\\', '\\']
  else if c.toNat ≥ 32 then [c]
  else if c.toNat = 8 then ['\\', 'b']
  else if c.toNat = 9 then ['\\', 't']
  else if c.toNat = 10 then ['\\', 'n']
  else if c.toNat = 12 then ['\\', 'f']
  else if c.toNat = 13 then ['\\', 'r']
  else ['\\', 'u', '0', '0', hexChar (c.toNat / 16), hexChar (c.toNat % 16)]

/-- A JSON string literal, double quotes included. -/
def jstr (s : String) : String :=
  String.mk ('"' :: s.data.flatMap jsonEscapeChar ++ ['"'])

/-- JSON rendering of the JS number `cents / 100` (the source stores package
prices in integer cents and divides by 100; for amounts with at most two
decimals the JS double prints exactly this shortest decimal form). -/
def centsToJson (cents : Nat) : String :=
  if cents % 100 = 0 then toString (cents / 100)
  else if cents % 10 = 0 then toString (cents / 100) ++ "." ++ toString (cents % 100 / 10)
  else if cents % 100 < 10 then toString (cents / 100) ++ ".0" ++ toString (cents % 100)
  else toString (cents / 100) ++ "." ++ toString (cents % 100)

/-- The canonical event-purchase fact tuple (server.js lines 538-547 when
signing, 1019-1028 when re-deriving at receipt lookup). -/
structure EventSignatureData where
  receipt_number : String
  purchase_id : String
  user_id : String
  event_id : String
  access_token : String
  tokens_spent : Int
  expires_at : String
  timestamp : String
deriving Repr, DecidableEq

/-- The canonical token-purchase fact tuple (server.js lines 756-765 when
signing, 978-987 when re-deriving at receipt lookup). -/
structure TokenSignatureData where
  receipt_number : String
  purchase_id : String
  user_id : String
  package_id : String
  tokens : Nat
  amountCents : Nat
  square_payment_id : String
  timestamp : String
deriving Repr, DecidableEq

/-- JSON.stringify of the event fact, with the key order of the source. -/
def EventSignatureData.stringify (d : EventSignatureData) : String :=
  "\x7b\"receipt_number\":" ++ jstr d.receipt_number ++
  ",\"purchase_id\":" ++ jstr d.purchase_id ++
  ",\"user_id\":" ++ jstr d.user_id ++
  ",\"event_id\":" ++ jstr d.event_id ++
  ",\"access_token\":" ++ jstr d.access_token ++
  ",\"tokens_spent\":" ++ toString d.tokens_spent ++
  ",\"expires_at\":" ++ jstr d.expires_at ++
  ",\"timestamp\":" ++ jstr d.timestamp ++ "\x7d"

/-- JSON.stringify of the token fact, with the key order of the source. -/
def TokenSignatureData.stringify (d : TokenSignatureData) : String :=
  "\x7b\"receipt_number\":" ++ jstr d.receipt_number ++
  ",\"purchase_id\":" ++ jstr d.purchase_id ++
  ",\"user_id\":" ++ jstr d.user_id ++
  ",\"package_id\":" ++ jstr d.package_id ++
  ",\"tokens\":" ++ toString d.tokens ++
  ",\"amount\":" ++ centsToJson d.amountCents ++
  ",\"square_payment_id\":" ++ jstr d.square_payment_id ++
  ",\"timestamp\":" ++ jstr d.timestamp ++ "\x7d"

/-- Either canonical fact shape handled by the Signature Engine. -/
inductive SignatureData where
  | event : EventSignatureData → SignatureData
  | token : TokenSignatureData → SignatureData
deriving Repr, DecidableEq

def SignatureData.stringify : SignatureData → String
  | .event d => d.stringify
  | .token d => d.stringify

/-- process.env.JWT_SECRET || 'your-secret-key' (the code's default). -/
def signingSecret : String := "your-secret-key"

/-- server.js generateDigitalSignature (lines 169-176):
HMAC-SHA256 of JSON.stringify(data) under the process-wide secret, hex. -/
def generateDigitalSignature (data : SignatureData) : String :=
  String.mk (hexEncodeBytes (hmacSha256 (strBytes signingSecret) (strBytes data.stringify)))

/-- The JS exceptions crypto can raise in verifyDigitalSignature. -/
inductive JsError where
  | typeError
  | rangeError
deriving Repr, DecidableEq

/-- node crypto.timingSafeEqual: throws RangeError when the buffer lengths
differ, otherwise compares (in constant time) and returns a Bool. -/
def timingSafeEqual (a b : List Nat) : Except JsError Bool :=
  if a.length = b.length then .ok (a == b) else .error .rangeError

/-- server.js verifyDigitalSignature (lines 179-185):
recompute the signature and timingSafeEqual-compare the hex-decoded buffers.
`none` models a missing (undefined/null) stored signature, on which
Buffer.from throws TypeError. -/
def verifyDigitalSignature (data : SignatureData) (signature : Option String) :
    Except JsError Bool :=
  let expectedSignature := generateDigitalSignature data
  match signature with
  | none => .error .typeError
  | some sig => timingSafeEqual (hexDecode sig) (hexDecode expectedSignature)

/- ===================== clock and timestamp formats ===================== -/

def pad2 (n : Nat) : String :=
  if n < 10 then "0" ++ toString n else toString n

def pad3 (n : Nat) : String :=
  if n < 10 then "00" ++ toString n else if n < 100 then "0" ++ toString n else toString n

def pad4 (n : Nat) : String :=
  if n < 10 then "000" ++ toString n
  else if n < 100 then "00" ++ toString n
  else if n < 1000 then "0" ++ toString n
  else toString n

/-- Gregorian (year, month, day) from days since 1970-01-01. -/
def civilFromDays (z0 : Nat) : Nat × Nat × Nat :=
  let z := z0 + 719468
  let era := z / 146097
  let doe := z % 146097
  let yoe := (doe - doe / 1460 + doe / 36524 - doe / 146096) / 365
  let y := yoe + era * 400
  let doy := doe - (365 * yoe + yoe / 4 - yoe / 100)
  let mp := (5 * doy + 2) / 153
  let d := doy - (153 * mp + 2) / 5 + 1
  let m := if mp < 10 then mp + 3 else mp - 9
  (if m ≤ 2 then y + 1 else y, m, d)

/-- new Date(ms).toISOString(): "YYYY-MM-DDTHH:MM:SS.mmmZ" (UTC). -/
def toISOString (ms : Nat) : String :=
  let days := ms / 86400000
  let rem := ms % 86400000
  let c := civilFromDays days
  pad4 c.1 ++ "-" ++ pad2 c.2.1 ++ "-" ++ pad2 c.2.2 ++ "T" ++
    pad2 (rem / 3600000) ++ ":" ++ pad2 (rem / 60000 % 60) ++ ":" ++ pad2 (rem / 1000 % 60) ++
    "." ++ pad3 (rem % 1000) ++ "Z"

/-- SQLite CURRENT_TIMESTAMP / datetime('now'): "YYYY-MM-DD HH:MM:SS" (UTC). -/
def sqliteTimestamp (ms : Nat) : String :=
  let days := ms / 86400000
  let rem := ms % 86400000
  let c := civilFromDays days
  pad4 c.1 ++ "-" ++ pad2 c.2.1 ++ "-" ++ pad2 c.2.2 ++ " " ++
    pad2 (rem / 3600000) ++ ":" ++ pad2 (rem / 60000 % 60) ++ ":" ++ pad2 (rem / 1000 % 60)

/-- SQLite datetime() normalization, restricted to the two timestamp shapes
this system writes: an ISO-8601 string with 'T', milliseconds and 'Z'
(written by the purchase flow) or an already-normalized
"YYYY-MM-DD HH:MM:SS" string; anything else yields NULL (none), which makes
any comparison false. -/
def sqliteDatetimeNorm (s : String) : Option String :=
  let cs := s.data
  if cs.length = 24 ∧ cs.getD 10 ' ' = 'T' ∧ cs.getD 23 ' ' = 'Z' then
    some (String.mk (cs.take 10 ++ [' '] ++ (cs.drop 11).take 8))
  else if cs.length = 19 ∧ cs.getD 10 'x' = ' ' then some s
  else none

/-- Byte-wise lexicographic strict order on characters, the BINARY collation
SQLite uses to compare TEXT values (our normalized timestamps are ASCII). -/
def strLexLt : List Char → List Char → Bool
  | [], [] => false
  | [], _ :: _ => true
  | _ :: _, [] => false
  | a :: as, b :: bs =>
    if a.toNat < b.toNat then true
    else if b.toNat < a.toNat then false
    else strLexLt as bs

/-- The SQL condition datetime(a) > datetime(b): lexicographic comparison of
the normalized TEXT values (false when either side is NULL). -/
def sqliteDatetimeGt (a b : String) : Bool :=
  match sqliteDatetimeNorm a, sqliteDatetimeNorm b with
  | some x, some y => strLexLt y.data x.data
  | _, _ => false

/- ===================== data model (the four logical tables) ===================== -/

/-- users table row (claims-relevant columns). -/
structure UserRow where
  id : String
  email : String
  password : String
  name : Option String
  token_balance : Int
deriving Repr, DecidableEq

/-- events table row (claims-relevant columns). -/
structure EventRow where
  id : String
  title : String
  subtitle : Option String
  price : Int
  youtube_url : Option String
deriving Repr, DecidableEq

/-- purchases table row (one AccessGrant). `purchase_date` and the omitted
INSERT columns take their schema defaults: CURRENT_TIMESTAMP and NULL. -/
structure PurchaseRow where
  id : String
  user_id : String
  event_id : String
  access_token : String
  purchase_date : String
  expires_at : String
  square_payment_id : Option String
  receipt_number : String
  receipt_url : Option String
  digital_signature : String
  amount_paid : Int
deriving Repr, DecidableEq

/-- orders table row.  `amount` is a REAL: the event flow stores the integer
token price, the token flow stores price/100 dollars. -/
structure OrderRow where
  id : String
  user_id : String
  type : String
  items : String
  amount : Rat
  status : String
  square_payment_id : Option String
  receipt_number : String
  digital_signature : String
  created_at : String
deriving Repr, DecidableEq

/-- token_purchases table row. `amount_paid_cents` holds 100 * the stored
REAL amount_paid, which the source computes as pkg.price / 100. -/
structure TokenPurchaseRow where
  id : String
  user_id : String
  package_id : String
  tokens_added : Nat
  bonus_tokens : Nat
  amount_paid_cents : Nat
  square_payment_id : String
  receipt_number : String
  digital_signature : String
  created_at : String
deriving Repr, DecidableEq

/-- The SQLite database state. -/
structure Store where
  users : List UserRow
  events : List EventRow
  purchases : List PurchaseRow
  orders : List OrderRow
  token_purchases : List TokenPurchaseRow
deriving Repr, DecidableEq

/-- UPDATE users SET token_balance = f(token_balance) WHERE id = uid. -/
def updateTokenBalance (st : Store) (uid : String) (f : Int → Int) : Store :=
  { st with
    users := st.users.map fun u =>
      if u.id == uid then { u with token_balance := f u.token_balance } else u }

def findUser (st : Store) (uid : String) : Option UserRow :=
  st.users.find? (fun u => u.id == uid)

def findEvent (st : Store) (eid : String) : Option EventRow :=
  st.events.find? (fun e => e.id == eid)

/-- JS template-literal rendering of a possibly-NULL column (null prints as
"null"). -/
def jsDisplay : Option String → String
  | some s => s
  | none => "null"

/- ===================== requests, environments, responses ===================== -/

/-- Body of POST /api/v1/purchases/events. -/
structure EventPurchaseRequest where
  event_id : String
  user_id : String
deriving Repr, DecidableEq

/-- Body of POST /api/v1/tokens/purchase. -/
structure TokenPurchaseRequest where
  package_id : String
  user_id : String
  source_id : String
  verification_token : String
deriving Repr, DecidableEq

/-- Outcome of the awaited Square paymentsApi.createPayment call: an opaque
payment id on success, or a thrown error whose optional `errors` field holds
the processor's declared error details. -/
inductive ChargeResult where
  | success (paymentId : String)
  | failure (errors : Option (List String))
deriving Repr, DecidableEq

/-- External inputs consumed by the event-purchase handler: the clock and the
generated identifiers; `emailFails` is the Resend outcome (swallowed by this
handler's inner try/catch). -/
structure EventPurchaseEnv where
  nowMs : Nat
  purchaseId : String
  accessToken : String
  receiptNumber : String
  orderId : String
  emailFails : Bool
deriving Repr, DecidableEq

/-- External inputs consumed by the token-purchase handler.  `emailError`:
none models a successful send; `some e` models sendReceiptEmail rethrowing an
error whose `errors` field is `e`. -/
structure TokenPurchaseEnv where
  nowMs : Nat
  idempotencyKey : String
  purchaseId : String
  receiptNumber : String
  orderId : String
  charge : ChargeResult
  emailError : Option (Option (List String))
deriving Repr, DecidableEq

/-- Response of POST /api/v1/purchases/events. -/
inductive EventPurchaseResult where
  | eventNotFound
  | userNotFound
  | insufficientTokens (required current shortage : Int)
  | purchased (access_token expires_at receipt_number digital_signature message : String)
deriving Repr, DecidableEq

/-- Response of POST /api/v1/tokens/purchase. -/
inductive TokenPurchaseResult where
  | invalidPackage
  | userNotFound
  | squarePaymentError (details : List String)
  | paymentError
  | success (new_balance : Int) (tokens_added bonus_tokens : Nat)
      (receipt_number digital_signature square_payment_id message : String)
deriving Repr, DecidableEq

/-- Response of POST /api/v1/events/:eventId/stream. -/
inductive StreamResult where
  | noValidPurchase
  | streamNotAvailable
  | ok (stream_url expires_at : String)
deriving Repr, DecidableEq

/-- Response of GET /api/v1/receipts/:receiptNumber (the claims-relevant
projection: which namespace hit, and the re-verified signature bit). -/
inductive ReceiptLookupResult where
  | notFound
  | serverError
  | tokenPurchaseView (receipt_number : String) (signature_valid : Bool)
  | eventPurchaseView (receipt_number : String) (signature_valid : Bool)
deriving Repr, DecidableEq

/-- The catch(squareError) branch of the token flow (lines 853-869): a thrown
error with an `errors` array maps to the 400 SQUARE_PAYMENT_ERROR response,
anything else to the 500 PAYMENT_ERROR response. -/
def squareFailureResponse : Option (List String) → TokenPurchaseResult
  | some details => .squarePaymentError details
  | none => .paymentError

/- ===================== the route handlers ===================== -/

/-- POST /api/v1/purchases/events (server.js lines 497-634).  `principal` is
the JWT payload installed by authenticateToken (req.user); the handler never
reads it — the debited account is req.body.user_id. -/
def purchaseEventAccess (principal : String) (env : EventPurchaseEnv)
    (req : EventPurchaseRequest) (st : Store) : EventPurchaseResult × Store :=
  match findEvent st req.event_id with
  | none => (.eventNotFound, st)
  | some event =>
  match findUser st req.user_id with
  | none => (.userNotFound, st)
  | some user =>
  if user.token_balance < event.price then
    (.insufficientTokens event.price user.token_balance (event.price - user.token_balance), st)
  else
    let st1 := updateTokenBalance st req.user_id (fun b => b - event.price)
    let expiresAt := toISOString (env.nowMs + 30 * 24 * 60 * 60 * 1000)
    let signatureData : EventSignatureData :=
      { receipt_number := env.receiptNumber
        purchase_id := env.purchaseId
        user_id := req.user_id
        event_id := req.event_id
        access_token := env.accessToken
        tokens_spent := event.price
        expires_at := expiresAt
        timestamp := toISOString env.nowMs }
    let digitalSignature := generateDigitalSignature (.event signatureData)
    let purchaseRow : PurchaseRow :=
      { id := env.purchaseId
        user_id := req.user_id
        event_id := req.event_id
        access_token := env.accessToken
        purchase_date := sqliteTimestamp env.nowMs
        expires_at := expiresAt
        square_payment_id := none
        receipt_number := env.receiptNumber
        receipt_url := none
        digital_signature := digitalSignature
        amount_paid := event.price }
    let orderRow : OrderRow :=
      { id := env.orderId
        user_id := req.user_id
        type := "Event Access"
        items := event.title ++ " - " ++ jsDisplay event.subtitle
        amount := (event.price : Rat)
        status := "completed"
        square_payment_id := none
        receipt_number := env.receiptNumber
        digital_signature := digitalSignature
        created_at := sqliteTimestamp env.nowMs }
    let st2 := { st1 with
      purchases := st1.purchases ++ [purchaseRow]
      orders := st1.orders ++ [orderRow] }
    (.purchased env.accessToken expiresAt env.receiptNumber digitalSignature
      ("Event purchased successfully! Receipt sent to " ++ user.email), st2)

/-- The fixed token package table (server.js lines 707-712); prices in cents. -/
structure TokenPackage where
  tokens : Nat
  bonus : Nat
  priceCents : Nat
  name : String
deriving Repr, DecidableEq

/-- The OWN entries of the packages object literal. -/
def findPackage (package_id : String) : Option TokenPackage :=
  if package_id = "100" then some ⟨100, 0, 499, "100 Tokens"⟩
  else if package_id = "250" then some ⟨250, 50, 999, "250 + 50 Bonus Tokens"⟩
  else if package_id = "500" then some ⟨500, 150, 1999, "500 + 150 Bonus Tokens"⟩
  else if package_id = "1000" then some ⟨1000, 500, 3999, "1000 + 500 Bonus Tokens"⟩
  else none

/-- The property names a JS object literal inherits from Object.prototype.
For these ids packages[package_id] yields a truthy value (a built-in
function, or Object.prototype itself for __proto__) even though the table
has no such entry, so the !pkg guard does not fire. -/
def objectPrototypeKeys : List String :=
  ["constructor", "hasOwnProperty", "isPrototypeOf", "propertyIsEnumerable",
   "toLocaleString", "toString", "valueOf", "__defineGetter__", "__defineSetter__",
   "__lookupGetter__", "__lookupSetter__", "__proto__"]

/-- Outcome of the JS property read packages[package_id]. -/
inductive PackageLookup where
  | own (pkg : TokenPackage)
  | inherited
  | absent
deriving Repr, DecidableEq

/-- packages[package_id]: an own entry of the four-key literal; otherwise a
truthy member inherited from Object.prototype; otherwise undefined. -/
def packagesLookup (package_id : String) : PackageLookup :=
  match findPackage package_id with
  | some pkg => .own pkg
  | none => if package_id ∈ objectPrototypeKeys then .inherited else .absent

/-- The database writes of the token flow after a successful charge
(server.js lines 773-812): credit the balance, insert the token_purchases row
and the mirrored orders row. -/
def tokenPurchaseCommit (env : TokenPurchaseEnv) (req : TokenPurchaseRequest) (st : Store)
    (pkg : TokenPackage) (paymentId digitalSignature : String) : Store :=
  let totalTokens := pkg.tokens + pkg.bonus
  let st1 := updateTokenBalance st req.user_id (fun b => b + (totalTokens : Int))
  let tpRow : TokenPurchaseRow :=
    { id := env.purchaseId
      user_id := req.user_id
      package_id := req.package_id
      tokens_added := pkg.tokens
      bonus_tokens := pkg.bonus
      amount_paid_cents := pkg.priceCents
      square_payment_id := paymentId
      receipt_number := env.receiptNumber
      digital_signature := digitalSignature
      created_at := sqliteTimestamp env.nowMs }
  let orderRow : OrderRow :=
    { id := env.orderId
      user_id := req.user_id
      type := "Token Package"
      items := pkg.name
      amount := (pkg.priceCents : Rat) / 100
      status := "completed"
      square_payment_id := some paymentId
      receipt_number := env.receiptNumber
      digital_signature := digitalSignature
      created_at := sqliteTimestamp env.nowMs }
  { st1 with
    token_purchases := st1.token_purchases ++ [tpRow]
    orders := st1.orders ++ [orderRow] }

/-- POST /api/v1/tokens/purchase (server.js lines 702-875).  Package
resolution and user lookup precede the charge; the charge precedes every
database write.  On an Object.prototype-inherited package id the !pkg guard
is skipped; for an existing user, BigInt(pkg.price) = BigInt(undefined) then
throws TypeError while the createPayment argument is built — inside the try
block, before any charge or write — and catch(squareError) turns it into the
500 PAYMENT_ERROR response (the thrown error has no errors field).  The
awaited sendReceiptEmail sits inside the same try block as the Square call,
so a rethrown email error lands in catch(squareError) after the writes have
happened. -/
def purchaseTokenPackage (principal : String) (env : TokenPurchaseEnv)
    (req : TokenPurchaseRequest) (st : Store) : TokenPurchaseResult × Store :=
  match packagesLookup req.package_id with
  | .absent => (.invalidPackage, st)
  | .inherited =>
    (match findUser st req.user_id with
     | none => (.userNotFound, st)
     | some _ => (.paymentError, st))
  | .own pkg =>
  match findUser st req.user_id with
  | none => (.userNotFound, st)
  | some user =>
  match env.charge with
  | .failure errs => (squareFailureResponse errs, st)
  | .success paymentId =>
    let totalTokens := pkg.tokens + pkg.bonus
    let signatureData : TokenSignatureData :=
      { receipt_number := env.receiptNumber
        purchase_id := env.purchaseId
        user_id := req.user_id
        package_id := req.package_id
        tokens := totalTokens
        amountCents := pkg.priceCents
        square_payment_id := paymentId
        timestamp := toISOString env.nowMs }
    let digitalSignature := generateDigitalSignature (.token signatureData)
    let st3 := tokenPurchaseCommit env req st pkg paymentId digitalSignature
    match env.emailError with
    | some e => (squareFailureResponse e, st3)
    | none =>
      match findUser st3 req.user_id with
      | some updatedUser =>
        (.success updatedUser.token_balance totalTokens pkg.bonus env.receiptNumber
          digitalSignature paymentId
          ("Successfully purchased " ++ toString totalTokens ++ " tokens! Receipt sent to "
            ++ user.email), st3)
      | none => (.paymentError, st3)

/-- POST /api/v1/events/:eventId/stream (server.js lines 666-695): find a
purchase for (user, event) with datetime(expires_at) > datetime('now');
403 without one, 404 when the event is missing or its youtube_url is falsy,
otherwise the stream URL and that purchase's expiry. -/
def getStreamLocator (principal : String) (nowMs : Nat) (user_id eventId : String)
    (st : Store) : StreamResult :=
  match st.purchases.find? (fun p =>
      p.user_id == user_id && p.event_id == eventId
        && sqliteDatetimeGt p.expires_at (sqliteTimestamp nowMs)) with
  | none => .noValidPurchase
  | some purchase =>
    match findEvent st eventId with
    | none => .streamNotAvailable
    | some event =>
      match event.youtube_url with
      | none => .streamNotAvailable
      | some url => if url = "" then .streamNotAvailable else .ok url purchase.expires_at

/-- GET /api/v1/receipts/:receiptNumber (server.js lines 964-1058): search
token_purchases (JOIN users), then purchases (JOIN users, events); re-derive
the fact tuple from the stored columns and verify.  A crypto exception is
caught by the route's catch and surfaces as the 500 response. -/
def lookupReceipt (st : Store) (receiptNumber : String) : ReceiptLookupResult :=
  match st.token_purchases.find? (fun tp =>
      tp.receipt_number == receiptNumber && st.users.any (fun u => u.id == tp.user_id)) with
  | some tp =>
    let signatureData : TokenSignatureData :=
      { receipt_number := tp.receipt_number
        purchase_id := tp.id
        user_id := tp.user_id
        package_id := tp.package_id
        tokens := tp.tokens_added + tp.bonus_tokens
        amountCents := tp.amount_paid_cents
        square_payment_id := tp.square_payment_id
        timestamp := tp.created_at }
    match verifyDigitalSignature (.token signatureData) (some tp.digital_signature) with
    | .error _ => .serverError
    | .ok isValid => .tokenPurchaseView tp.receipt_number isValid
  | none =>
  match st.purchases.find? (fun p =>
      p.receipt_number == receiptNumber
        && st.users.any (fun u => u.id == p.user_id)
        && st.events.any (fun e => e.id == p.event_id)) with
  | some p =>
    let signatureData : EventSignatureData :=
      { receipt_number := p.receipt_number
        purchase_id := p.id
        user_id := p.user_id
        event_id := p.event_id
        access_token := p.access_token
        tokens_spent := p.amount_paid
        expires_at := p.expires_at
        timestamp := p.purchase_date }
    match verifyDigitalSignature (.event signatureData) (some p.digital_signature) with
    | .error _ => .serverError
    | .ok isValid => .eventPurchaseView p.receipt_number isValid
  | none => .notFound

/- ===================== ledger-operation sequences (for the invariant) ===================== -/

/-- One balance-affecting request: an event purchase or a token purchase
(the only two mutators of token_balance in the source). -/
inductive LedgerOp where
  | eventPurchase (principal : String) (env : EventPurchaseEnv) (req : EventPurchaseRequest)
  | tokenPurchase (principal : String) (env : TokenPurchaseEnv) (req : TokenPurchaseRequest)

def applyLedgerOp (st : Store) : LedgerOp → Store
  | .eventPurchase principal env req => (purchaseEventAccess principal env req st).2
  | .tokenPurchase principal env req => (purchaseTokenPackage principal env req st).2

def runLedgerOps (st : Store) (ops : List LedgerOp) : Store :=
  ops.foldl applyLedgerOp st

/-- Every user's balance is a non-negative integer. -/
def BalancesNonneg (st : Store) : Prop :=
  ∀ u ∈ st.users, 0 ≤ u.token_balance

/-- Primary-key uniqueness of users.id (enforced by the schema). -/
def UniqueUserIds (st : Store) : Prop :=
  (st.users.map (fun u => u.id)).Nodup

instance decidableBalancesNonneg (st : Store) : Decidable (BalancesNonneg st) :=
  inferInstanceAs (Decidable (∀ u ∈ st.users, 0 ≤ u.token_balance))

instance decidableUniqueUserIds (st : Store) : Decidable (UniqueUserIds st) :=
  inferInstanceAs (Decidable ((st.users.map (fun u : UserRow => u.id)).Nodup))

/- ===================== concrete demonstration inputs ===================== -/

/-- A small concrete database: two users, two events (event-2 has no stream
URL), no purchases yet. -/
def demoStore : Store :=
  { users := [
      { id := "user-1", email := "u1@example.com", password := "pw1",
        name := some "User One", token_balance := 500 },
      { id := "user-2", email := "u2@example.com", password := "pw2",
        name := some "User Two", token_balance := 10 }]
    events := [
      { id := "event-1", title := "Main Event", subtitle := some "Co-Main",
        price := 50, youtube_url := some "https://youtube.example/watch1" },
      { id := "event-2", title := "Silent Event", subtitle := none,
        price := 50, youtube_url := none }]
    purchases := []
    orders := []
    token_purchases := [] }

def demoEventEnv : EventPurchaseEnv :=
  { nowMs := 1760000000000, purchaseId := "id_p1", accessToken := "tok_abc",
    receiptNumber := "RCP-TEST-1", orderId := "id_o1", emailFails := false }

def demoTokenEnv : TokenPurchaseEnv :=
  { nowMs := 1760000000000, idempotencyKey := "id_k1", purchaseId := "id_tp1",
    receiptNumber := "RCP-TEST-2", orderId := "id_o2",
    charge := .success "sq_pay_1", emailError := none }

def demoTokenReq : TokenPurchaseRequest :=
  { package_id := "250", user_id := "user-1", source_id := "cnon_demo",
    verification_token := "verf_demo" }

/-- An unexpired access grant for (user-1, event-2), the event with no
stream URL. -/
def demoGrantRow : PurchaseRow :=
  { id := "id_g1", user_id := "user-1", event_id := "event-2",
    access_token := "tok_g1", purchase_date := "2025-10-09 08:53:20",
    expires_at := "2025-11-08T08:53:20.000Z", square_payment_id := none,
    receipt_number := "RCP-G-1", receipt_url := none,
    digital_signature := "00", amount_paid := 50 }

def c9Store : Store := { demoStore with purchases := [demoGrantRow] }

/-- The same grant, but for event-1, which does have a stream URL. -/
def c9OkStore : Store :=
  { demoStore with purchases := [{ demoGrantRow with event_id := "event-1" }] }

/-- The demo token environment with the Square charge declined. -/
def demoTokenEnvDeclined : TokenPurchaseEnv :=
  { demoTokenEnv with charge := .failure (some ["CARD_DECLINED"]) }

/-- The demo token environment with a successful charge but a failing
receipt-email send (the rethrown error carries no `errors` field). -/
def demoTokenEnvEmailFail : TokenPurchaseEnv :=
  { demoTokenEnv with emailError := some none }

/-- A concrete event fact, for witnesses about the Signature Engine. -/
def demoEventFact : EventSignatureData :=
  { receipt_number := "RCP-TEST-1", purchase_id := "id_p1", user_id := "user-1",
    event_id := "event-1", access_token := "tok_abc", tokens_spent := 50,
    expires_at := "2025-11-08T08:53:20.000Z", timestamp := "2025-10-09T08:53:20.000Z" }

/- ===================== Signature Engine lemmas ===================== -/

theorem mem_wordBytes_lt {b w : Nat} (hb : b ∈ wordBytes w) : b < 256 := by
  simp only [wordBytes, List.mem_cons, List.not_mem_nil, or_false] at hb
  rcases hb with h | h | h | h <;> omega

theorem sha256_length (msg : List Nat) : (sha256 msg).length = 32 := by
  simp [sha256, wordBytes]

theorem sha256_mem_lt (msg : List Nat) : ∀ b ∈ sha256 msg, b < 256 := by
  intro b hb
  simp only [sha256, wordBytes, List.mem_append, List.mem_cons, List.not_mem_nil,
    or_false] at hb
  rcases hb with h|h|h|h|h|h|h|h|h|h|h|h|h|h|h|h|h|h|h|h|h|h|h|h|h|h|h|h|h|h|h|h <;> omega

theorem hmacSha256_length (key msg : List Nat) : (hmacSha256 key msg).length = 32 := by
  simp only [hmacSha256]
  exact sha256_length _

theorem hmacSha256_mem_lt (key msg : List Nat) : ∀ b ∈ hmacSha256 key msg, b < 256 := by
  simp only [hmacSha256]
  exact sha256_mem_lt _

theorem hexDigitVal_hexChar {n : Nat} (h : n < 16) : hexDigitVal (hexChar n) = some n := by
  interval_cases n <;> decide

theorem hexDecodeAux_hexEncodeBytes :
    ∀ bs : List Nat, (∀ b ∈ bs, b < 256) → hexDecodeAux (hexEncodeBytes bs) = bs := by
  intro bs
  induction bs with
  | nil => intro _; rfl
  | cons b rest ih =>
    intro h
    have hb : b < 256 := h b (List.mem_cons_self _ _)
    have hd1 : b / 16 % 16 < 16 := Nat.mod_lt _ (by norm_num)
    have hd2 : b % 16 < 16 := Nat.mod_lt _ (by norm_num)
    have hrest := ih (fun x hx => h x (List.mem_cons_of_mem _ hx))
    have henc : hexEncodeBytes (b :: rest)
        = hexChar (b / 16 % 16) :: hexChar (b % 16) :: hexEncodeBytes rest := rfl
    rw [henc]
    simp only [hexDecodeAux, hexDigitVal_hexChar hd1, hexDigitVal_hexChar hd2, hrest]
    have hbyte : 16 * (b / 16 % 16) + b % 16 = b := by omega
    rw [hbyte]

/-- The hex-decoded recomputed signature always has the 32-byte HMAC-SHA256
output length. -/
theorem hexDecode_generateDigitalSignature (data : SignatureData) :
    hexDecode (generateDigitalSignature data)
      = hmacSha256 (strBytes signingSecret) (strBytes data.stringify) := by
  simp only [generateDigitalSignature, hexDecode]
  exact hexDecodeAux_hexEncodeBytes _ (hmacSha256_mem_lt _ _)

theorem hexDecode_generateDigitalSignature_length (data : SignatureData) :
    (hexDecode (generateDigitalSignature data)).length = 32 := by
  rw [hexDecode_generateDigitalSignature]
  exact hmacSha256_length _ _

/-- Signature round-trip: verification of an untampered fact with the very
signature produced for it succeeds (and in particular does not throw). -/
theorem verifyDigitalSignature_roundtrip (data : SignatureData) :
    verifyDigitalSignature data (some (generateDigitalSignature data)) = .ok true := by
  simp [verifyDigitalSignature, timingSafeEqual]

/-- C3. The spec claims verification returns false (never throws) on
malformed or missing signature input.  The code instead throws: Buffer.from
of a missing signature raises TypeError, and crypto.timingSafeEqual raises
RangeError whenever the supplied signature's hex decoding is not exactly the
32 bytes of the recomputed HMAC — in particular on the empty string and on
any non-hex prefix (which node truncates to fewer than 32 bytes). -/
theorem c3_verify_raises_instead_of_returning_false :
    (∀ data : SignatureData, verifyDigitalSignature data none = .error .typeError)
  ∧ (∀ data : SignatureData, verifyDigitalSignature data (some "") = .error .rangeError)
  ∧ (∀ (data : SignatureData) (sig : String), (hexDecode sig).length ≠ 32 →
      verifyDigitalSignature data (some sig) = .error .rangeError) := by
  have key : ∀ (data : SignatureData) (sig : String), (hexDecode sig).length ≠ 32 →
      verifyDigitalSignature data (some sig) = .error .rangeError := by
    intro data sig h
    simp only [verifyDigitalSignature, timingSafeEqual,
      hexDecode_generateDigitalSignature_length data]
    rw [if_neg h]
  exact ⟨fun data => rfl, fun data => key data "" (by decide), key⟩

/-- Witness for C3: a concrete fact with a concrete malformed signature
("zz" decodes to 0 bytes). -/
theorem c3_witness :
    (hexDecode "zz").length ≠ 32
  ∧ verifyDigitalSignature (.event demoEventFact) (some "zz") = .error .rangeError :=
  ⟨by decide, c3_verify_raises_instead_of_returning_false.2.2 (.event demoEventFact) "zz" (by decide)⟩

/- ===================== Token Ledger lemmas ===================== -/

theorem find?_map_updateBalance (users : List UserRow) (uid : String) (f : Int → Int) :
    (users.map (fun u =>
        if u.id == uid then { u with token_balance := f u.token_balance } else u)).find?
          (fun u => u.id == uid)
      = (users.find? (fun u => u.id == uid)).map
          (fun u => { u with token_balance := f u.token_balance }) := by
  induction users with
  | nil => rfl
  | cons hd tl ih =>
    by_cases h : hd.id = uid
    · simp [h, -List.find?_map]
    · simp [h, -List.find?_map] at ih ⊢
      exact ih

theorem findUser_updateTokenBalance (st : Store) (uid : String) (f : Int → Int) :
    findUser (updateTokenBalance st uid f) uid
      = (findUser st uid).map (fun u => { u with token_balance := f u.token_balance }) := by
  simp only [findUser, updateTokenBalance]
  exact find?_map_updateBalance st.users uid f

theorem map_id_updateBalance (users : List UserRow) (uid : String) (f : Int → Int) :
    (users.map (fun u =>
        if u.id == uid then { u with token_balance := f u.token_balance } else u)).map
          (fun u => u.id)
      = users.map (fun u => u.id) := by
  rw [List.map_map]
  apply List.map_congr_left
  intro u _
  by_cases h : u.id = uid <;> simp [Function.comp, h]

theorem uniqueUserIds_updateTokenBalance (st : Store) (uid : String) (f : Int → Int)
    (hnd : UniqueUserIds st) : UniqueUserIds (updateTokenBalance st uid f) := by
  simp only [UniqueUserIds, updateTokenBalance]
  rw [map_id_updateBalance]
  exact hnd

theorem uniqueUserIds_users_eq {st st' : Store} (hu : st'.users = st.users)
    (hnd : UniqueUserIds st) : UniqueUserIds st' := by
  rw [UniqueUserIds, hu]
  exact hnd

theorem balancesNonneg_users_eq {st st' : Store} (hu : st'.users = st.users)
    (h : BalancesNonneg st) : BalancesNonneg st' := by
  intro u huu
  exact h u (hu ▸ huu)

/-- The first user found under a primary-key-unique id is the only one: any
member with that id is it. -/
theorem eq_of_find?_of_mem_unique (users : List UserRow) (uid : String) (user u : UserRow)
    (hnd : (users.map (fun x => x.id)).Nodup)
    (hfind : users.find? (fun x => x.id == uid) = some user)
    (hmem : u ∈ users) (hid : u.id = uid) : u = user := by
  induction users with
  | nil => cases hmem
  | cons hd tl ih =>
    rw [List.map_cons, List.nodup_cons] at hnd
    by_cases h : hd.id = uid
    · simp only [List.find?, show (hd.id == uid) = true by simp [h]] at hfind
      rcases List.mem_cons.mp hmem with rfl | hmem'
      · exact Option.some_injective _ hfind
      · exfalso
        have hmm : u.id ∈ tl.map (fun x => x.id) := List.mem_map_of_mem _ hmem'
        rw [hid, ← h] at hmm
        exact hnd.1 hmm
    · simp only [List.find?, show (hd.id == uid) = false by simp [h]] at hfind
      rcases List.mem_cons.mp hmem with rfl | hmem'
      · exact absurd hid h
      · exact ih hnd.2 hfind hmem'

theorem balancesNonneg_credit (st : Store) (uid : String) (n : Nat)
    (h : BalancesNonneg st) :
    BalancesNonneg (updateTokenBalance st uid (fun b => b + (n : Int))) := by
  intro u' hu'
  simp only [updateTokenBalance, List.mem_map] at hu'
  obtain ⟨u, hu, rfl⟩ := hu'
  have hb := h u hu
  by_cases hid : u.id = uid
  · rw [if_pos (show (u.id == uid) = true by simp [hid])]
    show 0 ≤ u.token_balance + (n : Int)
    omega
  · rw [if_neg (show ¬(u.id == uid) = true by simp [hid])]
    exact hb

theorem balancesNonneg_debit (st : Store) (uid : String) (price : Int) (user : UserRow)
    (hnd : UniqueUserIds st)
    (hfind : findUser st uid = some user)
    (hbal : ¬user.token_balance < price)
    (h : BalancesNonneg st) :
    BalancesNonneg (updateTokenBalance st uid (fun b => b - price)) := by
  intro u' hu'
  simp only [updateTokenBalance, List.mem_map] at hu'
  obtain ⟨u, hu, rfl⟩ := hu'
  have hb := h u hu
  by_cases hid : u.id = uid
  · have heq : u = user := eq_of_find?_of_mem_unique st.users uid user u hnd hfind hu hid
    subst heq
    rw [if_pos (show (u.id == uid) = true by simp [hid])]
    show 0 ≤ u.token_balance - price
    omega
  · rw [if_neg (show ¬(u.id == uid) = true by simp [hid])]
    exact hb

/-- Each of the two purchase flows preserves primary-key uniqueness and
balance non-negativity of the user table. -/
theorem applyLedgerOp_preserves (st : Store) (op : LedgerOp)
    (hnd : UniqueUserIds st) (h : BalancesNonneg st) :
    UniqueUserIds (applyLedgerOp st op) ∧ BalancesNonneg (applyLedgerOp st op) := by
  cases op with
  | eventPurchase principal env req =>
    cases hev : findEvent st req.event_id with
    | none =>
      simp only [applyLedgerOp, purchaseEventAccess, hev]
      exact ⟨hnd, h⟩
    | some event =>
      cases huser : findUser st req.user_id with
      | none =>
        simp only [applyLedgerOp, purchaseEventAccess, hev, huser]
        exact ⟨hnd, h⟩
      | some user =>
        by_cases hlt : user.token_balance < event.price
        · simp only [applyLedgerOp, purchaseEventAccess, hev, huser]
          rw [if_pos hlt]
          exact ⟨hnd, h⟩
        · simp only [applyLedgerOp, purchaseEventAccess, hev, huser]
          rw [if_neg hlt]
          exact ⟨uniqueUserIds_updateTokenBalance st req.user_id (fun b => b - event.price) hnd,
            balancesNonneg_debit st req.user_id event.price user hnd huser hlt h⟩
  | tokenPurchase principal env req =>
    cases hpkg : packagesLookup req.package_id with
    | absent =>
      simp only [applyLedgerOp, purchaseTokenPackage, hpkg]
      exact ⟨hnd, h⟩
    | inherited =>
      cases huser : findUser st req.user_id with
      | none =>
        simp only [applyLedgerOp, purchaseTokenPackage, hpkg, huser]
        exact ⟨hnd, h⟩
      | some user =>
        simp only [applyLedgerOp, purchaseTokenPackage, hpkg, huser]
        exact ⟨hnd, h⟩
    | own pkg =>
      cases huser : findUser st req.user_id with
      | none =>
        simp only [applyLedgerOp, purchaseTokenPackage, hpkg, huser]
        exact ⟨hnd, h⟩
      | some user =>
        cases hch : env.charge with
        | failure errs =>
          simp only [applyLedgerOp, purchaseTokenPackage, hpkg, huser, hch]
          exact ⟨hnd, h⟩
        | success paymentId =>
          simp only [applyLedgerOp, purchaseTokenPackage, hpkg, huser, hch]
          have hcommit : UniqueUserIds (tokenPurchaseCommit env req st pkg paymentId
                (generateDigitalSignature (.token
                  { receipt_number := env.receiptNumber, purchase_id := env.purchaseId,
                    user_id := req.user_id, package_id := req.package_id,
                    tokens := pkg.tokens + pkg.bonus, amountCents := pkg.priceCents,
                    square_payment_id := paymentId, timestamp := toISOString env.nowMs })))
              ∧ BalancesNonneg (tokenPurchaseCommit env req st pkg paymentId
                (generateDigitalSignature (.token
                  { receipt_number := env.receiptNumber, purchase_id := env.purchaseId,
                    user_id := req.user_id, package_id := req.package_id,
                    tokens := pkg.tokens + pkg.bonus, amountCents := pkg.priceCents,
                    square_payment_id := paymentId, timestamp := toISOString env.nowMs }))) :=
            ⟨uniqueUserIds_updateTokenBalance st req.user_id
                (fun b => b + ((pkg.tokens + pkg.bonus : Nat) : Int)) hnd,
             balancesNonneg_credit st req.user_id (pkg.tokens + pkg.bonus) h⟩
          cases env.emailError with
          | some e => exact hcommit
          | none =>
            cases findUser (tokenPurchaseCommit env req st pkg paymentId
                (generateDigitalSignature (.token
                  { receipt_number := env.receiptNumber, purchase_id := env.purchaseId,
                    user_id := req.user_id, package_id := req.package_id,
                    tokens := pkg.tokens + pkg.bonus, amountCents := pkg.priceCents,
                    square_payment_id := paymentId, timestamp := toISOString env.nowMs })))
                req.user_id with
            | some updatedUser => exact hcommit
            | none => exact hcommit

theorem runLedgerOps_preserves (ops : List LedgerOp) (st : Store)
    (hnd : UniqueUserIds st) (h : BalancesNonneg st) :
    UniqueUserIds (runLedgerOps st ops) ∧ BalancesNonneg (runLedgerOps st ops) := by
  induction ops generalizing st with
  | nil => exact ⟨hnd, h⟩
  | cons op rest ih =>
    have hstep := applyLedgerOp_preserves st op hnd h
    exact ih (applyLedgerOp st op) hstep.1 hstep.2

/-- The insufficient-balance rejection, shared by C5 and C6. -/
theorem insufficientRejected (principal : String) (env : EventPurchaseEnv)
    (req : EventPurchaseRequest) (st : Store) (event : EventRow) (user : UserRow)
    (hev : findEvent st req.event_id = some event)
    (huser : findUser st req.user_id = some user)
    (hlt : user.token_balance < event.price) :
    purchaseEventAccess principal env req st
      = (.insufficientTokens event.price user.token_balance
          (event.price - user.token_balance), st) := by
  simp only [purchaseEventAccess, hev, huser]
  rw [if_pos hlt]

/-- C5. Starting from a non-negative user table (with primary-key-unique
ids), any sequence of event-purchase and token-purchase requests keeps every
balance non-negative; and a debit whose amount exceeds the current balance is
rejected with the whole store unchanged. -/
theorem c5_balance_nonneg_invariant :
    (∀ (ops : List LedgerOp) (st : Store), UniqueUserIds st → BalancesNonneg st →
        BalancesNonneg (runLedgerOps st ops))
  ∧ (∀ (principal : String) (env : EventPurchaseEnv) (req : EventPurchaseRequest)
        (st : Store) (event : EventRow) (user : UserRow),
        findEvent st req.event_id = some event →
        findUser st req.user_id = some user →
        user.token_balance < event.price →
        purchaseEventAccess principal env req st
          = (.insufficientTokens event.price user.token_balance
              (event.price - user.token_balance), st)) :=
  ⟨fun ops st hnd h => (runLedgerOps_preserves ops st hnd h).2,
   fun principal env req st event user hev huser hlt =>
     insufficientRejected principal env req st event user hev huser hlt⟩

/-- Witness for C5 at the demo store and a two-request sequence. -/
theorem c5_witness :
    UniqueUserIds demoStore ∧ BalancesNonneg demoStore
  ∧ BalancesNonneg (runLedgerOps demoStore
      [.eventPurchase "user-1" demoEventEnv ⟨"event-1", "user-1"⟩,
       .tokenPurchase "user-1" demoTokenEnv demoTokenReq]) :=
  ⟨by decide, by decide,
   c5_balance_nonneg_invariant.1
     [.eventPurchase "user-1" demoEventEnv ⟨"event-1", "user-1"⟩,
      .tokenPurchase "user-1" demoTokenEnv demoTokenReq]
     demoStore (by decide) (by decide)⟩

/-- C6. With the event's price strictly above the user's balance the event
purchase fails carrying required/current/shortage and the store — balance,
purchases, orders, receipts — is completely unchanged. -/
theorem c6_insufficient_balance_rejected_unchanged :
    ∀ (principal : String) (env : EventPurchaseEnv) (req : EventPurchaseRequest)
      (st : Store) (event : EventRow) (user : UserRow),
      findEvent st req.event_id = some event →
      findUser st req.user_id = some user →
      user.token_balance < event.price →
      purchaseEventAccess principal env req st
        = (.insufficientTokens event.price user.token_balance
            (event.price - user.token_balance), st) :=
  fun principal env req st event user hev huser hlt =>
    insufficientRejected principal env req st event user hev huser hlt

/-- Witness for C6: user-2 (balance 10) attempts the 50-token event; the
response carries required 50, current 10, shortage 40 and the store is
untouched. -/
theorem c6_witness :
    purchaseEventAccess "user-2" demoEventEnv ⟨"event-1", "user-2"⟩ demoStore
      = (.insufficientTokens 50 10 40, demoStore) := by
  have h := c6_insufficient_balance_rejected_unchanged "user-2" demoEventEnv
    ⟨"event-1", "user-2"⟩ demoStore
    { id := "event-1", title := "Main Event", subtitle := some "Co-Main",
      price := 50, youtube_url := some "https://youtube.example/watch1" }
    { id := "user-2", email := "u2@example.com", password := "pw2",
      name := some "User Two", token_balance := 10 }
    (by decide) (by decide) (by decide)
  simpa using h

/-- C7. A failed Square charge (decline or processor failure) aborts the
token purchase before any write: the store is returned unchanged and the
response is one of the two payment-error responses. -/
theorem c7_charge_failure_aborts_before_mutation :
    ∀ (principal : String) (env : TokenPurchaseEnv) (req : TokenPurchaseRequest)
      (st : Store) (pkg : TokenPackage) (user : UserRow) (errs : Option (List String)),
      findPackage req.package_id = some pkg →
      findUser st req.user_id = some user →
      env.charge = .failure errs →
      purchaseTokenPackage principal env req st = (squareFailureResponse errs, st)
        ∧ (squareFailureResponse errs = .paymentError
            ∨ ∃ details, squareFailureResponse errs = .squarePaymentError details) := by
  intro principal env req st pkg user errs hpkg huser hch
  have hpl : packagesLookup req.package_id = .own pkg := by
    simp [packagesLookup, hpkg]
  constructor
  · simp only [purchaseTokenPackage, hpl, huser, hch]
  · cases errs with
    | none => exact Or.inl rfl
    | some details => exact Or.inr ⟨details, rfl⟩

/-- Witness for C7: a declined charge on the demo store leaves it unchanged
and reports the Square-declared decline. -/
theorem c7_witness :
    purchaseTokenPackage "user-1" demoTokenEnvDeclined demoTokenReq demoStore
      = (.squarePaymentError ["CARD_DECLINED"], demoStore) :=
  (c7_charge_failure_aborts_before_mutation "user-1" demoTokenEnvDeclined demoTokenReq
    demoStore ⟨250, 50, 999, "250 + 50 Bonus Tokens"⟩
    { id := "user-1", email := "u1@example.com", password := "pw1",
      name := some "User One", token_balance := 500 }
    (some ["CARD_DECLINED"]) (by decide) (by decide) rfl).1

/-- C8 (amended). The own entries of the package table are exactly the
four-entry literal map (prices in cents); a package id that is neither one
of the four nor an Object.prototype property name is rejected with the 400
'Invalid package' response and the store unchanged; an inherited
Object.prototype id ("constructor", "toString", "__proto__", ...) slips past
the !pkg guard and instead ends in the 404 user-not-found or — for an
existing user — the 500 PAYMENT_ERROR thrown by BigInt(undefined) before the
charge, in every case with the store unchanged; and after a successful
charge on a real package the flow credits exactly tokens + bonus and appends
exactly one token_purchases row and one orders row, both carrying the same
generated receipt number. -/
theorem c8_package_table_and_success_commit :
    (findPackage "100" = some ⟨100, 0, 499, "100 Tokens"⟩
      ∧ findPackage "250" = some ⟨250, 50, 999, "250 + 50 Bonus Tokens"⟩
      ∧ findPackage "500" = some ⟨500, 150, 1999, "500 + 150 Bonus Tokens"⟩
      ∧ findPackage "1000" = some ⟨1000, 500, 3999, "1000 + 500 Bonus Tokens"⟩
      ∧ (∀ pid : String, pid ≠ "100" → pid ≠ "250" → pid ≠ "500" → pid ≠ "1000" →
          findPackage pid = none))
  ∧ (∀ pid : String, packagesLookup pid = .absent
      ↔ findPackage pid = none ∧ pid ∉ objectPrototypeKeys)
  ∧ (∀ (principal : String) (env : TokenPurchaseEnv) (req : TokenPurchaseRequest) (st : Store),
      packagesLookup req.package_id = .absent →
      purchaseTokenPackage principal env req st = (.invalidPackage, st))
  ∧ (∀ (principal : String) (env : TokenPurchaseEnv) (req : TokenPurchaseRequest) (st : Store),
      packagesLookup req.package_id = .inherited →
      purchaseTokenPackage principal env req st
        = ((match findUser st req.user_id with
            | none => TokenPurchaseResult.userNotFound
            | some _ => TokenPurchaseResult.paymentError), st))
  ∧ (∀ (principal : String) (env : TokenPurchaseEnv) (req : TokenPurchaseRequest) (st : Store)
      (pkg : TokenPackage) (user : UserRow) (paymentId : String),
      findPackage req.package_id = some pkg →
      findUser st req.user_id = some user →
      env.charge = .success paymentId →
      ∃ sig : String,
        (purchaseTokenPackage principal env req st).2
            = tokenPurchaseCommit env req st pkg paymentId sig
        ∧ findUser (tokenPurchaseCommit env req st pkg paymentId sig) req.user_id
            = some { user with
                token_balance := user.token_balance + ((pkg.tokens + pkg.bonus : Nat) : Int) }
        ∧ (tokenPurchaseCommit env req st pkg paymentId sig).token_purchases
            = st.token_purchases ++
              [{ id := env.purchaseId, user_id := req.user_id, package_id := req.package_id,
                 tokens_added := pkg.tokens, bonus_tokens := pkg.bonus,
                 amount_paid_cents := pkg.priceCents, square_payment_id := paymentId,
                 receipt_number := env.receiptNumber, digital_signature := sig,
                 created_at := sqliteTimestamp env.nowMs }]
        ∧ (tokenPurchaseCommit env req st pkg paymentId sig).orders
            = st.orders ++
              [{ id := env.orderId, user_id := req.user_id, type := "Token Package",
                 items := pkg.name, amount := (pkg.priceCents : Rat) / 100,
                 status := "completed", square_payment_id := some paymentId,
                 receipt_number := env.receiptNumber, digital_signature := sig,
                 created_at := sqliteTimestamp env.nowMs }]) := by
  refine ⟨⟨by decide, by decide, by decide, by decide, ?_⟩, ?_, ?_, ?_, ?_⟩
  · intro pid h1 h2 h3 h4
    simp [findPackage, h1, h2, h3, h4]
  · intro pid
    unfold packagesLookup
    cases hf : findPackage pid with
    | some pkg => simp
    | none => by_cases hmem : pid ∈ objectPrototypeKeys <;> simp [hmem]
  · intro principal env req st hpkg
    simp only [purchaseTokenPackage, hpkg]
  · intro principal env req st hpkg
    simp only [purchaseTokenPackage, hpkg]
    cases findUser st req.user_id <;> rfl
  · intro principal env req st pkg user paymentId hpkg huser hch
    have hpl : packagesLookup req.package_id = .own pkg := by
      simp [packagesLookup, hpkg]
    refine ⟨generateDigitalSignature (.token
      { receipt_number := env.receiptNumber, purchase_id := env.purchaseId,
        user_id := req.user_id, package_id := req.package_id,
        tokens := pkg.tokens + pkg.bonus, amountCents := pkg.priceCents,
        square_payment_id := paymentId, timestamp := toISOString env.nowMs }), ?_, ?_, rfl, rfl⟩
    · simp only [purchaseTokenPackage, hpl, huser, hch]
      cases env.emailError with
      | some e => rfl
      | none =>
        cases findUser (tokenPurchaseCommit env req st pkg paymentId
            (generateDigitalSignature (.token
              { receipt_number := env.receiptNumber, purchase_id := env.purchaseId,
                user_id := req.user_id, package_id := req.package_id,
                tokens := pkg.tokens + pkg.bonus, amountCents := pkg.priceCents,
                square_payment_id := paymentId, timestamp := toISOString env.nowMs })))
            req.user_id with
        | some updatedUser => rfl
        | none => rfl
    · have h := findUser_updateTokenBalance st req.user_id
        (fun b => b + ((pkg.tokens + pkg.bonus : Nat) : Int))
      rw [huser] at h
      exact h

/-- Counterexample for C8 as originally stated: "constructor" is none of the
four package ids, yet the flow does not fail with the UnknownPackage (400
'Invalid package') response — the truthy Object.prototype member passes the
!pkg guard and the request ends in the 500 PAYMENT_ERROR (the store is still
unchanged). -/
theorem c8_counterexample :
    ("constructor" ≠ "100" ∧ "constructor" ≠ "250" ∧ "constructor" ≠ "500"
      ∧ "constructor" ≠ "1000")
  ∧ purchaseTokenPackage "user-1" demoTokenEnv
      { package_id := "constructor", user_id := "user-1", source_id := "cnon_demo",
        verification_token := "verf_demo" } demoStore
      = (.paymentError, demoStore) := by
  exact ⟨by decide, by decide⟩

/-- Witness for C8: purchasing package 250 on the demo store credits exactly
300 tokens (balance 500 → 800) and the result store is the committed one. -/
theorem c8_witness :
    ∃ sig : String,
      (purchaseTokenPackage "user-1" demoTokenEnv demoTokenReq demoStore).2
          = tokenPurchaseCommit demoTokenEnv demoTokenReq demoStore
              ⟨250, 50, 999, "250 + 50 Bonus Tokens"⟩ "sq_pay_1" sig
      ∧ findUser ((purchaseTokenPackage "user-1" demoTokenEnv demoTokenReq demoStore).2)
            demoTokenReq.user_id
          = some { id := "user-1", email := "u1@example.com", password := "pw1",
                   name := some "User One", token_balance := 800 } := by
  obtain ⟨sig, h1, h2, h3, h4⟩ := c8_package_table_and_success_commit.2.2.2.2 "user-1"
    demoTokenEnv demoTokenReq demoStore ⟨250, 50, 999, "250 + 50 Bonus Tokens"⟩
    { id := "user-1", email := "u1@example.com", password := "pw1",
      name := some "User One", token_balance := 500 }
    "sq_pay_1" (by decide) (by decide) rfl
  refine ⟨sig, h1, ?_⟩
  rw [h1, h2]
  decide

/-- C9 (amended). The stream endpoint is Forbidden exactly when no unexpired
purchase row exists for (user, event); when one exists it returns the stream
URL and that purchase's expiry only if the event row exists and carries a
non-empty stream URL — otherwise it fails with the 404 "Stream not
available" response instead of returning the locator. -/
theorem c9_stream_locator_amended :
    ∀ (principal : String) (nowMs : Nat) (uid eid : String) (st : Store),
      (getStreamLocator principal nowMs uid eid st = .noValidPurchase
        ↔ st.purchases.find? (fun p => p.user_id == uid && p.event_id == eid
            && sqliteDatetimeGt p.expires_at (sqliteTimestamp nowMs)) = none)
    ∧ (∀ (p : PurchaseRow) (event : EventRow) (url : String),
        st.purchases.find? (fun p => p.user_id == uid && p.event_id == eid
            && sqliteDatetimeGt p.expires_at (sqliteTimestamp nowMs)) = some p →
        findEvent st eid = some event → event.youtube_url = some url → ¬url = "" →
        getStreamLocator principal nowMs uid eid st = .ok url p.expires_at)
    ∧ (∀ p : PurchaseRow,
        st.purchases.find? (fun p => p.user_id == uid && p.event_id == eid
            && sqliteDatetimeGt p.expires_at (sqliteTimestamp nowMs)) = some p →
        (findEvent st eid = none
          ∨ ∃ event, findEvent st eid = some event
              ∧ (event.youtube_url = none ∨ event.youtube_url = some "")) →
        getStreamLocator principal nowMs uid eid st = .streamNotAvailable) := by
  intro principal nowMs uid eid st
  refine ⟨?_, ?_, ?_⟩
  · cases hp : st.purchases.find? (fun p => p.user_id == uid && p.event_id == eid
        && sqliteDatetimeGt p.expires_at (sqliteTimestamp nowMs)) with
    | none => simp [getStreamLocator, hp]
    | some p =>
      simp only [getStreamLocator, hp]
      constructor
      · intro hres
        exfalso
        split at hres
        · simp at hres
        · split at hres
          · simp at hres
          · split at hres <;> simp at hres
      · intro hres
        cases hres
  · intro p event url hp hev hurl hne
    simp only [getStreamLocator, hp, hev, hurl]
    rw [if_neg hne]
  · intro p hp hdisj
    rcases hdisj with hev | ⟨event, hev, hurl | hurl⟩
    · simp only [getStreamLocator, hp, hev]
    · simp only [getStreamLocator, hp, hev, hurl]
    · simp only [getStreamLocator, hp, hev, hurl]
      simp

/-- Counterexample for C9: an unexpired grant for (user-1, event-2) exists,
yet the result is the 404 "Stream not available" response, not the locator
and expiry the claim promises. -/
theorem c9_counterexample :
    c9Store.purchases.find? (fun p => p.user_id == "user-1" && p.event_id == "event-2"
        && sqliteDatetimeGt p.expires_at (sqliteTimestamp 1760000000000)) = some demoGrantRow
  ∧ getStreamLocator "user-1" 1760000000000 "user-1" "event-2" c9Store
      = .streamNotAvailable := by
  exact ⟨by decide, by decide⟩

/-- Witness for C9 (amended): with the grant moved to event-1, which has a
stream URL, the endpoint returns that URL and the grant's expiry. -/
theorem c9_witness :
    getStreamLocator "user-1" 1760000000000 "user-1" "event-1" c9OkStore
      = .ok "https://youtube.example/watch1" "2025-11-08T08:53:20.000Z" := by
  have h := (c9_stream_locator_amended "user-1" 1760000000000 "user-1" "event-1" c9OkStore).2.1
    { demoGrantRow with event_id := "event-1" }
    { id := "event-1", title := "Main Event", subtitle := some "Co-Main",
      price := 50, youtube_url := some "https://youtube.example/watch1" }
    "https://youtube.example/watch1" rfl rfl rfl (by decide)
  exact h

/-- C10. Neither purchase handler reads the authenticated principal: the
result (response and store) is invariant under changing it, and concretely a
caller authenticated as user-2 debits user-1's balance by naming user-1 in
the request body. -/
theorem c10_principal_not_bound_to_account :
    (∀ (p1 p2 : String) (env : EventPurchaseEnv) (req : EventPurchaseRequest) (st : Store),
        purchaseEventAccess p1 env req st = purchaseEventAccess p2 env req st)
  ∧ (∀ (p1 p2 : String) (env : TokenPurchaseEnv) (req : TokenPurchaseRequest) (st : Store),
        purchaseTokenPackage p1 env req st = purchaseTokenPackage p2 env req st)
  ∧ ((findUser (purchaseEventAccess "user-2" demoEventEnv ⟨"event-1", "user-1"⟩ demoStore).2
        "user-1").map (fun u => u.token_balance) = some 450
      ∧ (findUser (purchaseEventAccess "user-2" demoEventEnv ⟨"event-1", "user-1"⟩ demoStore).2
        "user-2").map (fun u => u.token_balance) = some 10) :=
  ⟨fun p1 p2 env req st => rfl, fun p1 p2 env req st => rfl, by decide, by decide⟩

/-- C2.  The event flow wraps the awaited receipt email in its own
try/catch, so its outcome never changes the response (first conjunct).  The
token flow does not: after a successful charge, the credit and both row
inserts, a rethrown email error lands in catch(squareError) and the caller
receives a payment-error response — while the committed state is kept, the
success response the claim promises is lost (remaining conjuncts). -/
theorem c2_token_flow_email_failure_surfaces_as_payment_error :
    (∀ (principal : String) (env : EventPurchaseEnv) (req : EventPurchaseRequest)
        (st : Store) (b : Bool),
        purchaseEventAccess principal { env with emailFails := b } req st
          = purchaseEventAccess principal env req st)
  ∧ (∀ (principal : String) (env : TokenPurchaseEnv) (req : TokenPurchaseRequest) (st : Store)
        (pkg : TokenPackage) (user : UserRow) (paymentId : String) (e : Option (List String)),
        findPackage req.package_id = some pkg →
        findUser st req.user_id = some user →
        env.charge = .success paymentId →
        env.emailError = some e →
        ∃ sig : String, purchaseTokenPackage principal env req st
          = (squareFailureResponse e, tokenPurchaseCommit env req st pkg paymentId sig))
  ∧ ((purchaseTokenPackage "user-1" demoTokenEnvEmailFail demoTokenReq demoStore).1
        = .paymentError
      ∧ (purchaseTokenPackage "user-1" demoTokenEnvEmailFail demoTokenReq demoStore).2.users.map
          (fun u => u.token_balance) = [800, 10]
      ∧ (purchaseTokenPackage "user-1" demoTokenEnvEmailFail demoTokenReq
          demoStore).2.token_purchases.map (fun tp => tp.receipt_number) = ["RCP-TEST-2"]
      ∧ (purchaseTokenPackage "user-1" demoTokenEnvEmailFail demoTokenReq demoStore).2.orders.map
          (fun o => o.receipt_number) = ["RCP-TEST-2"]) := by
  refine ⟨fun principal env req st b => rfl, ?_, by decide, by decide, by decide, by decide⟩
  intro principal env req st pkg user paymentId e hpkg huser hch hmail
  have hpl : packagesLookup req.package_id = .own pkg := by
    simp [packagesLookup, hpkg]
  exact ⟨generateDigitalSignature (.token
      { receipt_number := env.receiptNumber, purchase_id := env.purchaseId,
        user_id := req.user_id, package_id := req.package_id,
        tokens := pkg.tokens + pkg.bonus, amountCents := pkg.priceCents,
        square_payment_id := paymentId, timestamp := toISOString env.nowMs }),
    by simp only [purchaseTokenPackage, hpl, huser, hch, hmail]⟩

/-- Witness for C2 at the demo inputs: successful charge, failing email send;
the response is the 500 payment error while the committed store stands. -/
theorem c2_witness :
    ∃ sig : String, purchaseTokenPackage "user-1" demoTokenEnvEmailFail demoTokenReq demoStore
      = (squareFailureResponse none,
         tokenPurchaseCommit demoTokenEnvEmailFail demoTokenReq demoStore
           ⟨250, 50, 999, "250 + 50 Bonus Tokens"⟩ "sq_pay_1" sig) :=
  c2_token_flow_email_failure_surfaces_as_payment_error.2.1 "user-1" demoTokenEnvEmailFail
    demoTokenReq demoStore ⟨250, 50, 999, "250 + 50 Bonus Tokens"⟩
    { id := "user-1", email := "u1@example.com", password := "pw1",
      name := some "User One", token_balance := 500 }
    "sq_pay_1" none (by decide) (by decide) rfl rfl

set_option maxRecDepth 1000000 in
/-- C1.  At the spec's own scenario (balance 500, price 50) the purchase
succeeds: the balance drops to 450, the stored grant expires exactly 30 days
after issuance, and the response returns the signature of the canonical fact
(conjuncts 1-3, as the claim states).  But the receipt lookup re-derives the
fact's timestamp from the row's purchase_date — SQLite's CURRENT_TIMESTAMP
"YYYY-MM-DD HH:MM:SS" — while the signature was computed over the ISO-8601
new Date().toISOString() string, so the recomputed HMAC differs and
signature_valid is false, not true (conjunct 4, refuting the claim). -/
theorem c1_successful_purchase_receipt_reports_invalid_signature :
    (purchaseEventAccess "user-1" demoEventEnv ⟨"event-1", "user-1"⟩ demoStore).2.users.map
        (fun u => u.token_balance) = [450, 10]
  ∧ (purchaseEventAccess "user-1" demoEventEnv ⟨"event-1", "user-1"⟩ demoStore).2.purchases.map
        (fun p => p.expires_at) = [toISOString (1760000000000 + 30 * 24 * 60 * 60 * 1000)]
  ∧ (purchaseEventAccess "user-1" demoEventEnv ⟨"event-1", "user-1"⟩ demoStore).1
      = .purchased "tok_abc" (toISOString (1760000000000 + 30 * 24 * 60 * 60 * 1000))
          "RCP-TEST-1"
          (generateDigitalSignature (.event
            { receipt_number := "RCP-TEST-1", purchase_id := "id_p1", user_id := "user-1",
              event_id := "event-1", access_token := "tok_abc", tokens_spent := 50,
              expires_at := toISOString (1760000000000 + 30 * 24 * 60 * 60 * 1000),
              timestamp := toISOString 1760000000000 }))
          "Event purchased successfully! Receipt sent to u1@example.com"
  ∧ lookupReceipt (purchaseEventAccess "user-1" demoEventEnv ⟨"event-1", "user-1"⟩ demoStore).2
        "RCP-TEST-1"
      = .eventPurchaseView "RCP-TEST-1" false := by
  exact ⟨by decide, by decide, rfl, by decide⟩
